import Mathlib

/-!
Verification of the AssesmentMannagement submission engine.

The definitions below are a shallow embedding of
`src/backend/controllers/submissionController.js` (operating on the
`Submission` documents of `src/backend/models/Submission.js`): each HTTP
handler becomes a pure function from an explicit store of submissions to
either an error (HTTP status code plus message, as produced by the
controller) or the updated store.  Machine integers of the source are
modelled as `Nat`; JavaScript numbers that may be fractional (the grade)
are modelled as `Rat`; timestamps (`Date.now()`) are explicit `Nat`
parameters.
-/

/-- A principal as placed on `req.user` by the auth middleware:
a Mongo id and a role string (`"student"` or `"admin"`). -/
structure Principal where
  id : Nat
  role : String
deriving DecidableEq, Repr

/-- The challenge sub-record stored on a submission by `submitChallenge`
and mutated by `respondToChallenge`. -/
structure Challenge where
  status : String
  reason : String
  adminResponse : Option String
  challengeDate : Nat
  resolvedDate : Option Nat
deriving DecidableEq, Repr

/-- One `Submission` document, with the fields read and written by
`submissionController.js`.  `mcqResponses` maps a question-index key
(a string, as in the JSON payload) to the list of selected option texts. -/
structure Submission where
  id : Nat
  user : Nat
  assessment : Nat
  content : String
  mcqResponses : List (String × List String)
  tabSwitches : Nat
  evaluationStatus : String
  grade : Option Rat
  feedback : Option String
  evaluatedAt : Option Nat
  challenge : Option Challenge
  createdAt : Nat
deriving DecidableEq, Repr

/-- An assessment document as consulted by `createSubmission`
(`Assessment.findById` followed by the `isActive` check). -/
structure Assessment where
  id : Nat
  isActive : Bool
deriving DecidableEq, Repr

/-- An error response: HTTP status code and the controller's message. -/
structure Err where
  status : Nat
  msg : String
deriving DecidableEq, Repr

/-- The store of submission documents. -/
abbrev Store := List Submission

deriving instance DecidableEq for Except

/-- Embedding of `Submission.findById`. -/
def findById (store : Store) (i : Nat) : Option Submission :=
  store.find? (fun s => s.id == i)

/-- Embedding of `Assessment.findById`. -/
def findAssessment (assessments : List Assessment) (i : Nat) : Option Assessment :=
  assessments.find? (fun a => a.id == i)

/-- Embedding of `submission.save()`: replace the document with this id. -/
def saveSubmission (store : Store) (s : Submission) : Store :=
  store.map (fun t => if t.id = s.id then s else t)

/-- Embedding of the `findOne` pair lookup of `createSubmission`
(lines 28-31 of the controller). -/
def findByPair (store : Store) (userId assessmentId : Nat) : Option Submission :=
  store.find? (fun s => s.user == userId && s.assessment == assessmentId)

/-- Truthiness of `submission.challenge && submission.challenge.status`
(line 287 of the controller). -/
def hasActiveChallenge (s : Submission) : Bool :=
  match s.challenge with
  | some c => c.status != ""
  | none => false

/-- Error of line 13: missing `assessmentId` or `content`. -/
def errRequiredFields : Err := ⟨400, "Please provide all required fields"⟩

/-- Error of line 19: unknown assessment. -/
def errAssessmentNotFound : Err := ⟨404, "Assessment not found"⟩

/-- Error of line 24: inactive assessment for a non-admin. -/
def errInactiveAssessment : Err := ⟨400, "This assessment is no longer active"⟩

/-- Error of line 34: the `DuplicateSubmission` outcome. -/
def errDuplicateSubmission : Err := ⟨400, "You have already submitted this assessment"⟩

/-- Error of line 110 and friends: unknown submission id. -/
def errSubmissionNotFound : Err := ⟨404, "Submission not found"⟩

/-- Error of line 149: update by neither owner nor admin. -/
def errNotAuthorizedUpdate : Err := ⟨403, "Not authorized to update this submission"⟩

/-- Error of line 154: student update of an evaluated submission. -/
def errCannotUpdateEvaluated : Err := ⟨400, "Cannot update an evaluated submission"⟩

/-- Error of line 184: missing grade or feedback. -/
def errGradeFeedbackRequired : Err := ⟨400, "Please provide both grade and feedback"⟩

/-- Error of line 188: grade out of range. -/
def errGradeRange : Err := ⟨400, "Grade must be between 0 and 100"⟩

/-- Error of line 193: non-admin evaluator. -/
def errNotAdminEvaluate : Err := ⟨403, "Not authorized to evaluate submissions"⟩

/-- Error of line 267: missing challenge reason. -/
def errReasonRequired : Err := ⟨400, "Please provide a reason for the challenge"⟩

/-- Error of line 278: challenge by a non-owner. -/
def errNotOwnerChallenge : Err := ⟨403, "Not authorized to challenge this submission"⟩

/-- Error of line 283: challenging an unevaluated submission. -/
def errNotEvaluated : Err := ⟨400, "Only evaluated submissions can be challenged"⟩

/-- Error of line 288: the `AlreadyChallenged` outcome. -/
def errAlreadyChallenged : Err := ⟨400, "This submission already has an active challenge"⟩

/-- Error of line 321: missing response text. -/
def errResponseRequired : Err := ⟨400, "Please provide a response to the challenge"⟩

/-- Error of line 326: non-admin responder. -/
def errNotAdminRespond : Err := ⟨403, "Not authorized to respond to challenges"⟩

/-- Error of line 337: no pending or reviewing challenge. -/
def errNoPendingChallenge : Err := ⟨400, "This submission does not have a pending or reviewing challenge"⟩

/-- Embedding of `createSubmission` (controller lines 7-60).  `newId` is the
id the persistence layer assigns to the inserted document and `now` its
creation timestamp. -/
def createSubmission (assessments : List Assessment) (store : Store)
    (user : Principal) (assessmentId : Option Nat) (content : String)
    (tabSwitches : Option Nat) (multipleChoiceAnswers : Option (List (String × List String)))
    (newId : Nat) (now : Nat) : Except Err Store :=
  match assessmentId with
  | none => .error errRequiredFields
  | some aid =>
    if content = "" then .error errRequiredFields
    else match findAssessment assessments aid with
      | none => .error errAssessmentNotFound
      | some a =>
        if a.isActive = false ∧ user.role ≠ "admin" then .error errInactiveAssessment
        else match findByPair store user.id aid with
          | some _ => .error errDuplicateSubmission
          | none =>
            .ok (store ++ [{ id := newId, user := user.id, assessment := aid,
                             content := content,
                             mcqResponses := multipleChoiceAnswers.getD [],
                             tabSwitches := tabSwitches.getD 0,
                             evaluationStatus := "pending", grade := none,
                             feedback := none, evaluatedAt := none,
                             challenge := none, createdAt := now }])

/-- Submission record after the conditional writes of `updateSubmission`
(controller lines 158-159): `content` is replaced when truthy and
`tabSwitches` when truthy (so `0` is ignored, as in the source). -/
def updatedSub (sub : Submission) (content : String) (tabSwitches : Nat) : Submission :=
  let s1 := if content ≠ "" then { sub with content := content } else sub
  if tabSwitches ≠ 0 then { s1 with tabSwitches := tabSwitches } else s1

/-- Embedding of `updateSubmission` (controller lines 137-173).  A JSON body
field that is absent or falsy is modelled by `""` for `content` and `0` for
`tabSwitches`, matching the `if (content)` / `if (tabSwitches)` guards. -/
def updateSubmission (store : Store) (user : Principal) (subId : Nat)
    (content : String) (tabSwitches : Nat) : Except Err Store :=
  match findById store subId with
  | none => .error errSubmissionNotFound
  | some sub =>
    if sub.user ≠ user.id ∧ user.role ≠ "admin" then .error errNotAuthorizedUpdate
    else if sub.evaluationStatus = "evaluated" ∧ user.role ≠ "admin" then
      .error errCannotUpdateEvaluated
    else
      .ok (saveSubmission store (updatedSub sub content tabSwitches))

/-- Submission record after the evaluation writes of controller lines
203-206: grade, feedback, `evaluationStatus = evaluated` and `evaluatedAt`
are set; no other field is touched. -/
def evaluatedSub (sub : Submission) (g : Rat) (feedback : String) (now : Nat) : Submission :=
  { sub with grade := some g, feedback := some feedback,
             evaluationStatus := "evaluated", evaluatedAt := some now }

/-- Embedding of `evaluateSubmission` (controller lines 178-221).  The grade
arrives as a JavaScript number, possibly fractional, so it is modelled as an
optional `Rat` (`none` = `undefined`). -/
def evaluateSubmission (store : Store) (user : Principal) (subId : Nat)
    (grade : Option Rat) (feedback : String) (now : Nat) : Except Err Store :=
  match grade with
  | none => .error errGradeFeedbackRequired
  | some g =>
    if feedback = "" then .error errGradeFeedbackRequired
    else if g < 0 ∨ g > 100 then .error errGradeRange
    else if user.role ≠ "admin" then .error errNotAdminEvaluate
    else match findById store subId with
      | none => .error errSubmissionNotFound
      | some sub => .ok (saveSubmission store (evaluatedSub sub g feedback now))

/-- Embedding of `submitChallenge` (controller lines 262-310). -/
def submitChallenge (store : Store) (user : Principal) (subId : Nat)
    (reason : String) (now : Nat) : Except Err Store :=
  if reason = "" then .error errReasonRequired
  else match findById store subId with
    | none => .error errSubmissionNotFound
    | some sub =>
      if sub.user ≠ user.id then .error errNotOwnerChallenge
      else if sub.evaluationStatus ≠ "evaluated" then .error errNotEvaluated
      else if hasActiveChallenge sub then .error errAlreadyChallenged
      else
        .ok (saveSubmission store
          { sub with challenge := some { status := "pending", reason := reason,
                                         adminResponse := none,
                                         challengeDate := now,
                                         resolvedDate := none } })

/-- Character-list prefix test backing the substring search. -/
def beginsWith : List Char → List Char → Bool
  | _, [] => true
  | [], _ :: _ => false
  | a :: as, b :: bs => (a == b) && beginsWith as bs

/-- Character-list substring test backing `jsIncludes`. -/
def containsSub : List Char → List Char → Bool
  | [], needle => needle.isEmpty
  | a :: as, needle => beginsWith (a :: as) needle || containsSub as needle

/-- Embedding of JavaScript `haystack.includes(needle)`. -/
def jsIncludes (haystack needle : String) : Bool :=
  containsSub haystack.data needle.data

/-- Embedding of the tag scan of `respondToChallenge` (controller lines
318 and 340-347): the initial value of `challengeStatus` is `"resolved"`
and the three recognized tags are tried in order. -/
def challengeStatusOf (response : String) : String :=
  if jsIncludes response "[Status: ACCEPTED]" then "accepted"
  else if jsIncludes response "[Status: REJECTED]" then "rejected"
  else if jsIncludes response "[Status: REVIEWING]" then "reviewing"
  else "resolved"

/-- Challenge record after `respondToChallenge` writes to it (controller
lines 350-356): new status from the tag scan, the response text stored
verbatim, and `resolvedDate` stamped unless the status is `reviewing`. -/
def respondedCh (c : Challenge) (response : String) (now : Nat) : Challenge :=
  { c with status := challengeStatusOf response,
           adminResponse := some response,
           resolvedDate :=
             if challengeStatusOf response ≠ "reviewing" then some now
             else c.resolvedDate }

/-- Embedding of `respondToChallenge` (controller lines 315-370). -/
def respondToChallenge (store : Store) (user : Principal) (subId : Nat)
    (response : String) (now : Nat) : Except Err Store :=
  if response = "" then .error errResponseRequired
  else if user.role ≠ "admin" then .error errNotAdminRespond
  else match findById store subId with
    | none => .error errSubmissionNotFound
    | some sub =>
      match sub.challenge with
      | none => .error errNoPendingChallenge
      | some c =>
        if c.status ≠ "pending" ∧ c.status ≠ "reviewing" then
          .error errNoPendingChallenge
        else
          .ok (saveSubmission store { sub with challenge := some (respondedCh c response now) })

/-- The store kept by a handler run: an error response leaves the store as
it was (the controller returns before any write). -/
def orKeep (store : Store) : Except Err Store → Store
  | .ok s => s
  | .error _ => store

/-- Does the handler run succeed? -/
def resultOk : Except Err Store → Bool
  | .ok _ => true
  | .error _ => false

/-- One mutating request against the submission routes
(`src/backend/routes/submissionRoutes.js`); `read` stands for every GET
handler, none of which writes to the store. -/
inductive ApiOp where
  | create (user : Principal) (assessmentId : Option Nat) (content : String)
      (tabSwitches : Option Nat) (mcq : Option (List (String × List String)))
      (newId : Nat) (now : Nat)
  | update (user : Principal) (subId : Nat) (content : String) (tabSwitches : Nat)
  | evaluate (user : Principal) (subId : Nat) (grade : Option Rat)
      (feedback : String) (now : Nat)
  | challenge (user : Principal) (subId : Nat) (reason : String) (now : Nat)
  | respond (user : Principal) (subId : Nat) (response : String) (now : Nat)
  | read

/-- Effect of one request on the submission store. -/
def execOp (assessments : List Assessment) (op : ApiOp) (store : Store) : Store :=
  match op with
  | .create u aid c t m newId now =>
      orKeep store (createSubmission assessments store u aid c t m newId now)
  | .update u i c t => orKeep store (updateSubmission store u i c t)
  | .evaluate u i g f now => orKeep store (evaluateSubmission store u i g f now)
  | .challenge u i r now => orKeep store (submitChallenge store u i r now)
  | .respond u i r now => orKeep store (respondToChallenge store u i r now)
  | .read => store

/-- Effect of a sequence of requests on the submission store. -/
def execOps (assessments : List Assessment) (ops : List ApiOp) (store : Store) : Store :=
  ops.foldl (fun st op => execOp assessments op st) store

/-- An MCQ option: text plus correctness flag (assessment model). -/
structure QOption where
  text : String
  isCorrect : Bool
deriving DecidableEq, Repr

/-- A question of an assessment: type (`"descriptive"` or `"mcq"`),
optional category, and options for MCQ questions. -/
structure Question where
  questionText : String
  qtype : String
  categoryName : Option String
  options : List QOption
deriving DecidableEq, Repr

/-- Set-equality of two option-text lists: each is contained in the other
(insertion order and duplicates are irrelevant). -/
def sameOptionSet (a b : List String) : Bool :=
  a.all (fun x => b.contains x) && b.all (fun x => a.contains x)

/-- Texts of the options flagged correct. -/
def correctOptions (q : Question) : List String :=
  (q.options.filter (fun o => o.isCorrect)).map (fun o => o.text)

/-- Modelled from the spec: the per-question MCQ score.  The repository
ships no scoring code under `src/` (the stored `categoryScores` field and
its rendering are all that appear); per spec §4.3 a response scores 100
exactly when the selected-option set equals the correct-option set, with no
partial credit, and 0 otherwise. -/
def mcqScore (correct selected : List String) : Nat :=
  if sameOptionSet selected correct then 100 else 0

/-- Response recorded for the question at a given index: `mcqResponses` is
keyed by the stringified question index. -/
def responseFor (responses : List (String × List String)) (idx : Nat) : List String :=
  (responses.lookup (toString idx)).getD []

/-- Add one per-question score to a category's running (total, count)
accumulator list. -/
def bump : List (String × Nat × Nat) → String → Nat → List (String × Nat × Nat)
  | [], cat, sc => [(cat, sc, 1)]
  | (c, tot, cnt) :: rest, cat, sc =>
    if c = cat then (c, tot + sc, cnt + 1) :: rest
    else (c, tot, cnt) :: bump rest cat sc

/-- Fold step of the category aggregation: an MCQ question with a category
contributes its score to that category's bucket; descriptive questions and
questions without a category contribute nowhere. -/
def scoreStep (responses : List (String × List String))
    (acc : List (String × Nat × Nat)) (p : Nat × Question) : List (String × Nat × Nat) :=
  if p.2.qtype = "mcq" then
    match p.2.categoryName with
    | some cat => bump acc cat (mcqScore (correctOptions p.2) (responseFor responses p.1))
    | none => acc
  else acc

/-- Modelled from the spec: running (total, count) per category over the
enumerated question list (spec §4.3, category aggregation). -/
def categoryTotals (questions : List Question)
    (responses : List (String × List String)) : List (String × Nat × Nat) :=
  (questions.enum).foldl (scoreStep responses) []

/-- Modelled from the spec: the `categoryScores` mapping, category name to
average of the per-question 0/100 scores in that category. -/
def categoryScores (questions : List Question)
    (responses : List (String × List String)) : List (String × Rat) :=
  (categoryTotals questions responses).map (fun p => (p.1, mkRat (p.2.1 : Int) p.2.2))

/-- The enumerated questions of a list that are MCQ and carry the given
category. -/
def relFilter (l : List (Nat × Question)) (cat : String) : List (Nat × Question) :=
  l.filter (fun p => p.2.qtype == "mcq" && p.2.categoryName == some cat)

/-- The enumerated MCQ questions of an assessment carrying a given category. -/
def relevantMcq (questions : List Question) (cat : String) : List (Nat × Question) :=
  relFilter (questions.enum) cat

/-- Per-question score of an enumerated question against the responses. -/
def questionScore (responses : List (String × List String)) (p : Nat × Question) : Nat :=
  mcqScore (correctOptions p.2) (responseFor responses p.1)

/-- Sum of the per-question scores of a list of enumerated questions. -/
def sumScores (responses : List (String × List String))
    (rel : List (Nat × Question)) : Nat :=
  (rel.map (questionScore responses)).sum

/-- The uniqueness invariant of the store: no two documents share a
(user, assessment) pair. -/
def pairUnique (store : Store) : Prop :=
  store.Pairwise (fun a b => ¬(a.user = b.user ∧ a.assessment = b.assessment))

/-- A `createSubmission` request, for folding sequences of creation calls. -/
structure CreateReq where
  user : Principal
  assessmentId : Option Nat
  content : String
  tabSwitches : Option Nat
  mcq : Option (List (String × List String))
  newId : Nat
  now : Nat

/-- Run one creation request, keeping the store on failure. -/
def applyCreate (assessments : List Assessment) (store : Store) (r : CreateReq) : Store :=
  orKeep store (createSubmission assessments store r.user r.assessmentId r.content
    r.tabSwitches r.mcq r.newId r.now)

/-- Concrete admin principal for witness checks. -/
def adminP : Principal := ⟨99, "admin"⟩

/-- Concrete student principal, owner of the sample submissions. -/
def studentP : Principal := ⟨7, "student"⟩

/-- Concrete active assessment for witness checks. -/
def assessA : Assessment := ⟨3, true⟩

/-- Concrete assessment store for witness checks. -/
def assessments0 : List Assessment := [assessA]

/-- Sample submission awaiting evaluation. -/
def subPending : Submission :=
  { id := 1, user := 7, assessment := 3, content := "answer",
    mcqResponses := [], tabSwitches := 2, evaluationStatus := "pending",
    grade := none, feedback := none, evaluatedAt := none, challenge := none,
    createdAt := 0 }

/-- Sample evaluated submission. -/
def subEvaluated : Submission :=
  { subPending with evaluationStatus := "evaluated", grade := some 85,
                    feedback := some "Good", evaluatedAt := some 4 }

/-- Sample pending challenge. -/
def chPending : Challenge :=
  { status := "pending", reason := "unfair", adminResponse := none,
    challengeDate := 6, resolvedDate := none }

/-- Sample accepted (terminal) challenge. -/
def chAccepted : Challenge :=
  { status := "accepted", reason := "unfair",
    adminResponse := some "[Status: ACCEPTED] agreed",
    challengeDate := 6, resolvedDate := some 9 }

/-- Sample evaluated submission with a pending challenge. -/
def subChallenged : Submission :=
  { subEvaluated with challenge := some chPending }

/-- Sample submission whose challenge reached the terminal status
`accepted`. -/
def subTerminal : Submission :=
  { subEvaluated with challenge := some chAccepted }

/-- Store holding the pending sample submission. -/
def storePending : Store := [subPending]

/-- Store holding the evaluated sample submission. -/
def storeEvaluated : Store := [subEvaluated]

/-- Store holding the challenged sample submission. -/
def storeChallenged : Store := [subChallenged]

/-- Store holding the terminally-challenged sample submission. -/
def storeTerminal : Store := [subTerminal]

/-- Sample second creation request for the same (user, assessment) pair. -/
def dupReq : CreateReq := ⟨studentP, some 3, "again", none, none, 2, 5⟩

/-- Status of the challenge of the submission with this id, if any. -/
def challengeStatusAt (store : Store) (i : Nat) : Option String :=
  (findById store i).bind (fun s => s.challenge.map (fun c => c.status))

/-- Resolution date of the challenge of the submission with this id, if any. -/
def challengeResolvedAt (store : Store) (i : Nat) : Option Nat :=
  (findById store i).bind (fun s => s.challenge.bind (fun c => c.resolvedDate))

/-- A challenge in a terminal state: `accepted`, `rejected`, or `resolved`
with an admin response set. -/
def terminalCh : Option Challenge → Bool
  | some c => c.status == "accepted" || c.status == "rejected" ||
      (c.status == "resolved" && c.adminResponse.isSome)
  | none => false

/-- Is this request an `updateSubmission` call? -/
def isUpdateOp : ApiOp → Bool
  | .update _ _ _ _ => true
  | _ => false

/-- Is this request an `evaluateSubmission` call? -/
def isEvaluateOp : ApiOp → Bool
  | .evaluate _ _ _ _ _ => true
  | _ => false

/-- Is this request a challenge-filing or challenge-response call? -/
def isChallengeOp : ApiOp → Bool
  | .challenge _ _ _ _ => true
  | .respond _ _ _ _ => true
  | _ => false

theorem findById_id (store : Store) (i : Nat) (sub : Submission)
    (h : findById store i = some sub) : sub.id = i := by
  unfold findById at h
  have h2 := List.find?_some h
  simpa using h2

theorem find_map_save_self (l : List Submission) (i : Nat) (s : Submission)
    (hs : s.id = i) :
    (l.map (fun t => if t.id = s.id then s else t)).find? (fun t => t.id == i) =
      (l.find? (fun t => t.id == i)).map (fun _ => s) := by
  induction l with
  | nil => rfl
  | cons t rest ih =>
    by_cases ht : t.id = i
    · have hts : t.id = s.id := by rw [ht, hs]
      simp [hts, List.find?_cons, hs, ht]
    · have hts : ¬t.id = s.id := by rw [hs]; exact ht
      simp [hts, List.find?_cons, ht, ih]

theorem find_map_save_other (l : List Submission) (i : Nat) (s : Submission)
    (hs : s.id ≠ i) :
    (l.map (fun t => if t.id = s.id then s else t)).find? (fun t => t.id == i) =
      l.find? (fun t => t.id == i) := by
  have hsi : ¬i = s.id := fun hh => hs hh.symm
  induction l with
  | nil => rfl
  | cons t rest ih =>
    by_cases hts : t.id = s.id
    · have ht : ¬t.id = i := by rw [hts]; exact hs
      simp [hts, List.find?_cons, ht, hs, hsi, ih]
    · by_cases ht : t.id = i
      · simp [hts, List.find?_cons, ht, hsi]
      · simp [hts, List.find?_cons, ht, hsi, ih]

theorem findById_save_self (store : Store) (i : Nat) (sub s : Submission)
    (h : findById store i = some sub) (hs : s.id = i) :
    findById (saveSubmission store s) i = some s := by
  unfold findById saveSubmission
  rw [find_map_save_self store i s hs]
  unfold findById at h
  rw [h]
  rfl

theorem findById_save_other (store : Store) (i : Nat) (s : Submission)
    (hs : s.id ≠ i) :
    findById (saveSubmission store s) i = findById store i := by
  unfold findById saveSubmission
  exact find_map_save_other store i s hs

theorem findById_append_some (store l2 : Store) (i : Nat) (sub : Submission)
    (h : findById store i = some sub) :
    findById (store ++ l2) i = some sub := by
  unfold findById at h ⊢
  rw [List.find?_append, h]
  rfl

theorem findByPair_none (store : Store) (uid aid : Nat)
    (h : findByPair store uid aid = none) :
    ∀ t ∈ store, ¬(t.user = uid ∧ t.assessment = aid) := by
  intro t ht hc
  have h2 := List.find?_eq_none.mp h t ht
  simp [hc.1, hc.2] at h2

theorem pairUnique_applyCreate (assessments : List Assessment) (store : Store)
    (r : CreateReq) (h : pairUnique store) :
    pairUnique (applyCreate assessments store r) := by
  unfold applyCreate createSubmission
  cases r.assessmentId with
  | none => exact h
  | some aid =>
    by_cases hc : r.content = ""
    · simp only [hc, if_pos rfl]; exact h
    · simp only [if_neg hc]
      cases hA : findAssessment assessments aid with
      | none => exact h
      | some a =>
        by_cases hact : a.isActive = false ∧ r.user.role ≠ "admin"
        · simp only [if_pos hact]; exact h
        · simp only [if_neg hact]
          cases hp : findByPair store r.user.id aid with
          | some s => exact h
          | none =>
            simp only [orKeep]
            rw [pairUnique, List.pairwise_append]
            refine ⟨h, List.pairwise_singleton _ _, ?_⟩
            intro x hx y hy
            simp only [List.mem_singleton] at hy
            subst hy
            simpa using findByPair_none store r.user.id aid hp x hx

theorem pairUnique_foldl_create (assessments : List Assessment) (reqs : List CreateReq)
    (store : Store) (h : pairUnique store) :
    pairUnique (List.foldl (applyCreate assessments) store reqs) := by
  induction reqs generalizing store with
  | nil => exact h
  | cons r rest ih =>
    exact ih _ (pairUnique_applyCreate assessments store r h)

theorem createSubmission_duplicate (assessments : List Assessment) (store : Store)
    (u : Principal) (aid : Nat) (content : String) (tabs : Option Nat)
    (mcq : Option (List (String × List String))) (newId now : Nat)
    (a : Assessment) (s : Submission)
    (hc : content ≠ "") (hA : findAssessment assessments aid = some a)
    (hact : a.isActive = true ∨ u.role = "admin")
    (hs : s ∈ store) (hu : s.user = u.id) (ha : s.assessment = aid) :
    createSubmission assessments store u (some aid) content tabs mcq newId now =
      .error errDuplicateSubmission := by
  have hpair : ∃ t, findByPair store u.id aid = some t := by
    rcases hfind : findByPair store u.id aid with _ | t
    · exact absurd ⟨hu, ha⟩ (findByPair_none store u.id aid hfind s hs)
    · exact ⟨t, rfl⟩
  rcases hpair with ⟨t, ht⟩
  have hact2 : ¬(a.isActive = false ∧ u.role ≠ "admin") := by
    rcases hact with h1 | h1
    · simp [h1]
    · simp [h1]
  unfold createSubmission
  simp only [hc, if_neg hc, hA, if_neg hact2, ht]
  simp

/-- C1: for every (user, assessment) pair, any sequence of
`createSubmission` calls leaves at most one submission for the pair
(the uniqueness invariant is preserved); a well-formed creation call for a
pair that already has a submission fails with the `DuplicateSubmission`
error, and the failed call leaves the store — in particular the existing
submission — unchanged. -/
theorem createSubmission_pair_unique (assessments : List Assessment) (store : Store)
    (reqs : List CreateReq) (u : Principal) (aid : Nat) (content : String)
    (tabs : Option Nat) (mcq : Option (List (String × List String))) (newId now : Nat)
    (a : Assessment) (s : Submission)
    (hinv : pairUnique store)
    (hc : content ≠ "") (hA : findAssessment assessments aid = some a)
    (hact : a.isActive = true ∨ u.role = "admin")
    (hs : s ∈ store) (hu : s.user = u.id) (ha : s.assessment = aid) :
    pairUnique (List.foldl (applyCreate assessments) store reqs) ∧
    createSubmission assessments store u (some aid) content tabs mcq newId now =
      .error errDuplicateSubmission ∧
    applyCreate assessments store ⟨u, some aid, content, tabs, mcq, newId, now⟩ = store := by
  have hdup := createSubmission_duplicate assessments store u aid content tabs mcq
    newId now a s hc hA hact hs hu ha
  refine ⟨pairUnique_foldl_create assessments reqs store hinv, hdup, ?_⟩
  unfold applyCreate
  simp only [hdup]
  rfl

/-- Witness for C1 at a concrete store: the student re-submits assessment 3
and is rejected with `DuplicateSubmission`, the store is untouched, and the
uniqueness invariant survives the attempt. -/
theorem createSubmission_pair_unique_witness :
    pairUnique (List.foldl (applyCreate assessments0) storePending [dupReq]) ∧
    createSubmission assessments0 storePending studentP (some 3) "again" none none 2 5 =
      .error errDuplicateSubmission ∧
    applyCreate assessments0 storePending ⟨studentP, some 3, "again", none, none, 2, 5⟩ =
      storePending :=
  createSubmission_pair_unique assessments0 storePending [dupReq] studentP 3 "again"
    none none 2 5 assessA subPending
    (by unfold pairUnique storePending; exact List.pairwise_singleton _ _)
    (by decide) (by decide) (Or.inl (by decide))
    (by unfold storePending; exact List.mem_singleton.mpr rfl)
    (by decide) (by decide)

theorem respond_ok_general (store : Store) (u : Principal) (i now : Nat)
    (sub : Submission) (c : Challenge) (response : String)
    (hadmin : u.role = "admin") (hre : response ≠ "")
    (hf : findById store i = some sub) (hch : sub.challenge = some c)
    (hst : c.status = "pending" ∨ c.status = "reviewing") :
    respondToChallenge store u i response now =
      .ok (saveSubmission store { sub with challenge := some (respondedCh c response now) }) := by
  have hrole : ¬u.role ≠ "admin" := by simp [hadmin]
  have hguard : ¬(c.status ≠ "pending" ∧ c.status ≠ "reviewing") := by
    rcases hst with h | h <;> simp [h]
  unfold respondToChallenge
  simp only [if_neg hre, if_neg hrole, hf, hch, if_neg hguard]

theorem respond_ok_find (store : Store) (i now : Nat)
    (sub : Submission) (c : Challenge) (response : String)
    (hf : findById store i = some sub) :
    findById (saveSubmission store { sub with challenge := some (respondedCh c response now) }) i
      = some { sub with challenge := some (respondedCh c response now) } :=
  findById_save_self store i sub _ hf (findById_id store i sub hf)

/-- C2 counterexample: on a pending challenge, an admin response containing
none of the three recognized status tags sets the challenge status to
`resolved`, not `reviewing` as claimed. -/
theorem respond_no_tag_reviewing_cex :
    jsIncludes "Looked at it" "[Status: ACCEPTED]" = false ∧
    jsIncludes "Looked at it" "[Status: REJECTED]" = false ∧
    jsIncludes "Looked at it" "[Status: REVIEWING]" = false ∧
    resultOk (respondToChallenge storeChallenged adminP 1 "Looked at it" 9) = true ∧
    challengeStatusAt
      (orKeep storeChallenged (respondToChallenge storeChallenged adminP 1 "Looked at it" 9)) 1 =
      some "resolved" ∧
    some "resolved" ≠ some "reviewing" := by decide

/-- C2 as amended: for every submission with a challenge in status pending
or reviewing, an admin `respondToChallenge` whose non-empty response text
contains none of the recognized status tags succeeds and sets the challenge
status to `resolved` (stamping `resolvedDate`), not `reviewing`. -/
theorem respond_no_tag_sets_resolved (store : Store) (u : Principal) (i now : Nat)
    (sub : Submission) (c : Challenge) (response : String)
    (hadmin : u.role = "admin") (hre : response ≠ "")
    (hf : findById store i = some sub) (hch : sub.challenge = some c)
    (hst : c.status = "pending" ∨ c.status = "reviewing")
    (h1 : jsIncludes response "[Status: ACCEPTED]" = false)
    (h2 : jsIncludes response "[Status: REJECTED]" = false)
    (h3 : jsIncludes response "[Status: REVIEWING]" = false) :
    ∃ store2, respondToChallenge store u i response now = .ok store2 ∧
      challengeStatusAt store2 i = some "resolved" ∧
      challengeResolvedAt store2 i = some now := by
  have hok := respond_ok_general store u i now sub c response hadmin hre hf hch hst
  have hfind := respond_ok_find store i now sub c response hf
  refine ⟨_, hok, ?_, ?_⟩
  · unfold challengeStatusAt
    rw [hfind]
    simp [respondedCh, challengeStatusOf, h1, h2, h3]
  · unfold challengeResolvedAt
    rw [hfind]
    simp [respondedCh, challengeStatusOf, h1, h2, h3]

/-- Witness for the amended C2 at a concrete store. -/
theorem respond_no_tag_sets_resolved_witness :
    ∃ store2, respondToChallenge storeChallenged adminP 1 "Looked at it" 9 = .ok store2 ∧
      challengeStatusAt store2 1 = some "resolved" ∧
      challengeResolvedAt store2 1 = some 9 :=
  respond_no_tag_sets_resolved storeChallenged adminP 1 9 subChallenged chPending
    "Looked at it" (by decide) (by decide) (by decide) (by decide)
    (Or.inl (by decide)) (by decide) (by decide) (by decide)

/-- C9: the tag scan of `respondToChallenge` applies a fixed precedence —
the ACCEPTED tag wins over the REJECTED tag, which wins over the REVIEWING
tag — wherever the tags occur in the text; in particular a response
containing both the ACCEPTED and REJECTED tags yields status `accepted`. -/
theorem respond_tag_precedence (store : Store) (u : Principal) (i now : Nat)
    (sub : Submission) (c : Challenge) (response : String)
    (hadmin : u.role = "admin") (hre : response ≠ "")
    (hf : findById store i = some sub) (hch : sub.challenge = some c)
    (hst : c.status = "pending" ∨ c.status = "reviewing") :
    resultOk (respondToChallenge store u i response now) = true ∧
    (jsIncludes response "[Status: ACCEPTED]" = true →
      challengeStatusAt (orKeep store (respondToChallenge store u i response now)) i =
        some "accepted") ∧
    (jsIncludes response "[Status: ACCEPTED]" = false →
      jsIncludes response "[Status: REJECTED]" = true →
      challengeStatusAt (orKeep store (respondToChallenge store u i response now)) i =
        some "rejected") ∧
    (jsIncludes response "[Status: ACCEPTED]" = false →
      jsIncludes response "[Status: REJECTED]" = false →
      jsIncludes response "[Status: REVIEWING]" = true →
      challengeStatusAt (orKeep store (respondToChallenge store u i response now)) i =
        some "reviewing") := by
  have hok := respond_ok_general store u i now sub c response hadmin hre hf hch hst
  have hfind := respond_ok_find store i now sub c response hf
  refine ⟨by simp [hok, resultOk], ?_, ?_, ?_⟩
  · intro h1
    rw [hok]
    unfold orKeep challengeStatusAt
    rw [hfind]
    simp [respondedCh, challengeStatusOf, h1]
  · intro h1 h2
    rw [hok]
    unfold orKeep challengeStatusAt
    rw [hfind]
    simp [respondedCh, challengeStatusOf, h1, h2]
  · intro h1 h2 h3
    rw [hok]
    unfold orKeep challengeStatusAt
    rw [hfind]
    simp [respondedCh, challengeStatusOf, h1, h2, h3]

/-- Witness for C9: a response carrying both the ACCEPTED and the REJECTED
tag resolves to `accepted`. -/
theorem respond_tag_precedence_witness :
    resultOk (respondToChallenge storeChallenged adminP 1
      "[Status: ACCEPTED] overriding [Status: REJECTED]" 9) = true ∧
    (jsIncludes "[Status: ACCEPTED] overriding [Status: REJECTED]" "[Status: ACCEPTED]" = true →
      challengeStatusAt (orKeep storeChallenged (respondToChallenge storeChallenged adminP 1
        "[Status: ACCEPTED] overriding [Status: REJECTED]" 9)) 1 = some "accepted") ∧
    (jsIncludes "[Status: ACCEPTED] overriding [Status: REJECTED]" "[Status: ACCEPTED]" = false →
      jsIncludes "[Status: ACCEPTED] overriding [Status: REJECTED]" "[Status: REJECTED]" = true →
      challengeStatusAt (orKeep storeChallenged (respondToChallenge storeChallenged adminP 1
        "[Status: ACCEPTED] overriding [Status: REJECTED]" 9)) 1 = some "rejected") ∧
    (jsIncludes "[Status: ACCEPTED] overriding [Status: REJECTED]" "[Status: ACCEPTED]" = false →
      jsIncludes "[Status: ACCEPTED] overriding [Status: REJECTED]" "[Status: REJECTED]" = false →
      jsIncludes "[Status: ACCEPTED] overriding [Status: REJECTED]" "[Status: REVIEWING]" = true →
      challengeStatusAt (orKeep storeChallenged (respondToChallenge storeChallenged adminP 1
        "[Status: ACCEPTED] overriding [Status: REJECTED]" 9)) 1 = some "reviewing") :=
  respond_tag_precedence storeChallenged adminP 1 9 subChallenged chPending
    "[Status: ACCEPTED] overriding [Status: REJECTED]" (by decide) (by decide)
    (by decide) (by decide) (Or.inl (by decide))

theorem challenge_ok_general (store : Store) (u : Principal) (i now : Nat)
    (sub : Submission) (reason : String)
    (hre : reason ≠ "") (hf : findById store i = some sub) (hown : sub.user = u.id)
    (hev : sub.evaluationStatus = "evaluated") (hch : hasActiveChallenge sub = false) :
    submitChallenge store u i reason now =
      .ok (saveSubmission store { sub with challenge := some ⟨"pending", reason, none, now, none⟩ }) := by
  have hus : ¬sub.user ≠ u.id := by simp [hown]
  have hevn : ¬sub.evaluationStatus ≠ "evaluated" := by simp [hev]
  unfold submitChallenge
  simp only [if_neg hre, hf, if_neg hus, if_neg hevn, hch]
  simp

/-- C3 counterexample: an evaluated, never-challenged submission owned by
the caller can still draw a failure from `submitChallenge` — an empty
reason is rejected with a validation error — so the claimed
"fails iff not evaluated or already challenged" equivalence is false. -/
theorem challenge_gating_cex :
    subEvaluated.evaluationStatus = "evaluated" ∧
    subEvaluated.challenge = none ∧
    subEvaluated.user = studentP.id ∧
    submitChallenge storeEvaluated studentP 1 "" 7 = .error errReasonRequired := by decide

/-- C3 as amended: for every submission owned by the calling principal and
every non-empty reason, `submitChallenge` fails if and only if the
submission's `evaluationStatus` is not `evaluated` or a challenge already
exists on it; when it succeeds it sets the challenge sub-record to status
`pending` with the given reason and challenge date.  (With an empty reason
the call fails with a validation error even when both preconditions hold.) -/
theorem challenge_gating (store : Store) (u : Principal) (i now : Nat)
    (sub : Submission) (reason : String)
    (hre : reason ≠ "") (hf : findById store i = some sub) (hown : sub.user = u.id) :
    ((∃ e, submitChallenge store u i reason now = .error e) ↔
      (sub.evaluationStatus ≠ "evaluated" ∨ hasActiveChallenge sub = true)) ∧
    (∀ store2, submitChallenge store u i reason now = .ok store2 →
      findById store2 i = some { sub with challenge := some ⟨"pending", reason, none, now, none⟩ }) := by
  have hus : ¬sub.user ≠ u.id := by simp [hown]
  by_cases hev : sub.evaluationStatus = "evaluated"
  · by_cases hch : hasActiveChallenge sub = true
    · have herr : submitChallenge store u i reason now = .error errAlreadyChallenged := by
        have hevn : ¬sub.evaluationStatus ≠ "evaluated" := by simp [hev]
        unfold submitChallenge
        simp only [if_neg hre, hf, if_neg hus, if_neg hevn, hch]
        simp
      refine ⟨⟨fun _ => Or.inr hch, fun _ => ⟨errAlreadyChallenged, herr⟩⟩, ?_⟩
      intro store2 h2
      rw [herr] at h2
      exact absurd h2 (by simp)
    · have hchf : hasActiveChallenge sub = false := by
        cases hb : hasActiveChallenge sub with
        | true => exact absurd hb hch
        | false => rfl
      have hok := challenge_ok_general store u i now sub reason hre hf hown hev hchf
      refine ⟨⟨?_, ?_⟩, ?_⟩
      · rintro ⟨e, he⟩
        rw [hok] at he
        exact absurd he (by simp)
      · intro hor
        rcases hor with h | h
        · exact absurd hev h
        · exact absurd h (by simp [hchf])
      · intro store2 h2
        rw [hok] at h2
        have h3 : saveSubmission store
            { sub with challenge := some ⟨"pending", reason, none, now, none⟩ } = store2 := by
          exact Except.ok.inj h2
        rw [← h3]
        exact findById_save_self store i sub _ hf (findById_id store i sub hf)
  · have herr : submitChallenge store u i reason now = .error errNotEvaluated := by
      unfold submitChallenge
      simp only [if_neg hre, hf, if_neg hus, hev]
      simp [hev]
    refine ⟨⟨fun _ => Or.inl hev, fun _ => ⟨errNotEvaluated, herr⟩⟩, ?_⟩
    intro store2 h2
    rw [herr] at h2
    exact absurd h2 (by simp)

/-- Witness for the amended C3 at a concrete store: with a non-empty
reason, the evaluated unchallenged submission accepts exactly one challenge
and the gating equivalence holds. -/
theorem challenge_gating_witness :
    ((∃ e, submitChallenge storeEvaluated studentP 1 "unfair" 6 = .error e) ↔
      (subEvaluated.evaluationStatus ≠ "evaluated" ∨ hasActiveChallenge subEvaluated = true)) ∧
    (∀ store2, submitChallenge storeEvaluated studentP 1 "unfair" 6 = .ok store2 →
      findById store2 1 = some { subEvaluated with challenge := some ⟨"pending", "unfair", none, 6, none⟩ }) :=
  challenge_gating storeEvaluated studentP 1 6 subEvaluated "unfair"
    (by decide) (by decide) (by decide)

/-- C10: `submitChallenge` has no admin bypass on ownership: with a
non-empty reason, every caller whose id differs from the submission's
owning user — whatever the caller's role, including `admin` — receives the
403 authorization error and the store is unchanged. -/
theorem challenge_owner_only (store : Store) (u : Principal) (i now : Nat)
    (sub : Submission) (reason : String)
    (hre : reason ≠ "") (hf : findById store i = some sub) (hne : sub.user ≠ u.id) :
    submitChallenge store u i reason now = .error errNotOwnerChallenge ∧
    errNotOwnerChallenge.status = 403 ∧
    orKeep store (submitChallenge store u i reason now) = store := by
  have herr : submitChallenge store u i reason now = .error errNotOwnerChallenge := by
    unfold submitChallenge
    simp only [if_neg hre, hf, if_pos hne]
  refine ⟨herr, rfl, ?_⟩
  rw [herr]
  rfl

/-- Witness for C10: an admin who does not own the submission is refused
with the 403 authorization error and the store is untouched. -/
theorem challenge_owner_only_witness :
    submitChallenge storeEvaluated adminP 1 "grade too low" 7 = .error errNotOwnerChallenge ∧
    errNotOwnerChallenge.status = 403 ∧
    orKeep storeEvaluated (submitChallenge storeEvaluated adminP 1 "grade too low" 7) =
      storeEvaluated :=
  challenge_owner_only storeEvaluated adminP 1 7 subEvaluated "grade too low"
    (by decide) (by decide) (by decide)

theorem evaluate_ok_general (store : Store) (u : Principal) (i : Nat)
    (g : Rat) (f : String) (now : Nat) (sub : Submission)
    (hadmin : u.role = "admin") (hfb : f ≠ "") (hrange : ¬(g < 0 ∨ g > 100))
    (hfind : findById store i = some sub) :
    evaluateSubmission store u i (some g) f now =
      .ok (saveSubmission store (evaluatedSub sub g f now)) := by
  have hrole : ¬u.role ≠ "admin" := by simp [hadmin]
  unfold evaluateSubmission
  simp only [if_neg hfb, if_neg hrange, if_neg hrole, hfind]

/-- C5 counterexample: the controller accepts a non-integer grade — 171/2
(85.5) is in range, its denominator is 2, and the evaluation succeeds —
so the claimed integrality requirement is not enforced. -/
theorem evaluate_nonint_grade_cex :
    (mkRat 171 2).den ≠ 1 ∧
    resultOk (evaluateSubmission storePending adminP 1 (some (mkRat 171 2)) "good" 5) = true := by
  decide

/-- C5 as amended: `evaluateSubmission` fails with a validation error
(HTTP 400) exactly when the grade is missing, the feedback is empty, or the
grade is outside [0,100]; integrality of the grade is not checked.  Every
such invalid call leaves the store unchanged. -/
theorem evaluate_validation (store : Store) (u : Principal) (i : Nat)
    (g : Option Rat) (f : String) (now : Nat) :
    ((∃ e, evaluateSubmission store u i g f now = .error e ∧ e.status = 400) ↔
      (g = none ∨ f = "" ∨ ∃ x, g = some x ∧ (x < 0 ∨ x > 100))) ∧
    ((g = none ∨ f = "" ∨ ∃ x, g = some x ∧ (x < 0 ∨ x > 100)) →
      orKeep store (evaluateSubmission store u i g f now) = store) := by
  cases g with
  | none =>
    have herr : evaluateSubmission store u i none f now = .error errGradeFeedbackRequired := rfl
    refine ⟨⟨fun _ => Or.inl rfl, fun _ => ⟨errGradeFeedbackRequired, herr, rfl⟩⟩, fun _ => ?_⟩
    rw [herr]
    rfl
  | some x =>
    by_cases hfb : f = ""
    · have herr : evaluateSubmission store u i (some x) f now = .error errGradeFeedbackRequired := by
        unfold evaluateSubmission
        simp only [if_pos hfb]
      refine ⟨⟨fun _ => Or.inr (Or.inl hfb), fun _ => ⟨errGradeFeedbackRequired, herr, rfl⟩⟩,
        fun _ => ?_⟩
      rw [herr]
      rfl
    · by_cases hrange : x < 0 ∨ x > 100
      · have herr : evaluateSubmission store u i (some x) f now = .error errGradeRange := by
          unfold evaluateSubmission
          simp only [if_neg hfb, if_pos hrange]
        refine ⟨⟨fun _ => Or.inr (Or.inr ⟨x, rfl, hrange⟩),
          fun _ => ⟨errGradeRange, herr, rfl⟩⟩, fun _ => ?_⟩
        rw [herr]
        rfl
      · have hval : ¬(some x = none ∨ f = "" ∨ ∃ y, some x = some y ∧ (y < 0 ∨ y > 100)) := by
          rintro (h | h | ⟨y, hy, hr⟩)
          · exact absurd h (by simp)
          · exact hfb h
          · rw [Option.some.inj hy] at hrange
            exact hrange hr
        refine ⟨⟨?_, fun h => absurd h hval⟩, fun h => absurd h hval⟩
        rintro ⟨e, he, hst⟩
        unfold evaluateSubmission at he
        simp only [if_neg hfb, if_neg hrange] at he
        by_cases hrole : u.role ≠ "admin"
        · rw [if_pos hrole] at he
          have he2 : errNotAdminEvaluate = e := Except.error.inj he
          rw [← he2] at hst
          exact absurd hst (by decide)
        · rw [if_neg hrole] at he
          cases hfind : findById store i with
          | none =>
            rw [hfind] at he
            have he2 : errSubmissionNotFound = e := Except.error.inj he
            rw [← he2] at hst
            exact absurd hst (by decide)
          | some sub =>
            rw [hfind] at he
            exact absurd he (by simp)

/-- Witness for the amended C5: an out-of-range grade draws the 400
validation error and leaves the store as it was. -/
theorem evaluate_validation_witness :
    ((∃ e, evaluateSubmission storePending adminP 1 (some 150) "good" 5 = .error e ∧
        e.status = 400) ↔
      ((some (150 : Rat)) = none ∨ "good" = "" ∨
        ∃ x, (some (150 : Rat)) = some x ∧ (x < 0 ∨ x > 100))) ∧
    (((some (150 : Rat)) = none ∨ "good" = "" ∨
        ∃ x, (some (150 : Rat)) = some x ∧ (x < 0 ∨ x > 100)) →
      orKeep storePending (evaluateSubmission storePending adminP 1 (some 150) "good" 5) =
        storePending) :=
  evaluate_validation storePending adminP 1 (some 150) "good" 5

/-- C6: a second evaluation of an already-evaluated submission succeeds,
overwrites grade, feedback and `evaluatedAt` with the second call's values,
and leaves every other field — in particular an existing challenge
sub-record — unchanged. -/
theorem evaluate_reevaluate (store : Store) (u1 u2 : Principal) (i : Nat)
    (g1 g2 : Rat) (f1 f2 : String) (t1 t2 : Nat) (sub : Submission)
    (ha1 : u1.role = "admin") (ha2 : u2.role = "admin")
    (hfb1 : f1 ≠ "") (hfb2 : f2 ≠ "")
    (hr1 : ¬(g1 < 0 ∨ g1 > 100)) (hr2 : ¬(g2 < 0 ∨ g2 > 100))
    (hfind : findById store i = some sub) :
    ∃ store1 store2,
      evaluateSubmission store u1 i (some g1) f1 t1 = .ok store1 ∧
      evaluateSubmission store1 u2 i (some g2) f2 t2 = .ok store2 ∧
      findById store2 i = some (evaluatedSub sub g2 f2 t2) ∧
      (evaluatedSub sub g2 f2 t2).challenge = sub.challenge ∧
      (evaluatedSub sub g2 f2 t2).content = sub.content ∧
      (evaluatedSub sub g2 f2 t2).tabSwitches = sub.tabSwitches ∧
      (evaluatedSub sub g2 f2 t2).grade = some g2 ∧
      (evaluatedSub sub g2 f2 t2).evaluatedAt = some t2 := by
  have h1 := evaluate_ok_general store u1 i g1 f1 t1 sub ha1 hfb1 hr1 hfind
  have hfind1 : findById (saveSubmission store (evaluatedSub sub g1 f1 t1)) i =
      some (evaluatedSub sub g1 f1 t1) :=
    findById_save_self store i sub _ hfind (findById_id store i sub hfind)
  have h2 := evaluate_ok_general _ u2 i g2 f2 t2 _ ha2 hfb2 hr2 hfind1
  refine ⟨_, _, h1, h2, ?_, rfl, rfl, rfl, rfl, rfl⟩
  have hid2 : (evaluatedSub (evaluatedSub sub g1 f1 t1) g2 f2 t2).id = i :=
    findById_id store i sub hfind
  exact findById_save_self (saveSubmission store (evaluatedSub sub g1 f1 t1)) i
    (evaluatedSub sub g1 f1 t1) (evaluatedSub (evaluatedSub sub g1 f1 t1) g2 f2 t2)
    hfind1 hid2

/-- Witness for C6: re-grading the challenged sample submission from 85 to
90 succeeds and keeps its pending challenge intact. -/
theorem evaluate_reevaluate_witness :
    ∃ store1 store2,
      evaluateSubmission storeChallenged adminP 1 (some 85) "Good" 4 = .ok store1 ∧
      evaluateSubmission store1 adminP 1 (some 90) "Better" 8 = .ok store2 ∧
      findById store2 1 = some (evaluatedSub subChallenged 90 "Better" 8) ∧
      (evaluatedSub subChallenged 90 "Better" 8).challenge = subChallenged.challenge ∧
      (evaluatedSub subChallenged 90 "Better" 8).content = subChallenged.content ∧
      (evaluatedSub subChallenged 90 "Better" 8).tabSwitches = subChallenged.tabSwitches ∧
      (evaluatedSub subChallenged 90 "Better" 8).grade = some 90 ∧
      (evaluatedSub subChallenged 90 "Better" 8).evaluatedAt = some 8 :=
  evaluate_reevaluate storeChallenged adminP adminP 1 85 90 "Good" "Better" 4 8
    subChallenged (by decide) (by decide) (by decide) (by decide)
    (by decide) (by decide) (by decide)

theorem createSubmission_ok_shape (assessments : List Assessment) (store : Store)
    (u : Principal) (aid : Option Nat) (c : String) (t : Option Nat)
    (m : Option (List (String × List String))) (newId now : Nat) (store2 : Store)
    (h : createSubmission assessments store u aid c t m newId now = .ok store2) :
    ∃ ns : Submission, store2 = store ++ [ns] := by
  unfold createSubmission at h
  split at h
  · simp at h
  · split at h
    · simp at h
    · split at h
      · simp at h
      · split at h
        · simp at h
        · split at h
          · simp at h
          · exact ⟨_, (Except.ok.inj h).symm⟩

theorem updateSubmission_ok_shape (store : Store) (u : Principal) (j : Nat)
    (c : String) (t : Nat) (store2 : Store)
    (h : updateSubmission store u j c t = .ok store2) :
    ∃ sub0, findById store j = some sub0 ∧
      store2 = saveSubmission store (updatedSub sub0 c t) := by
  unfold updateSubmission at h
  split at h
  · simp at h
  · rename_i sub0 heq
    split at h
    · simp at h
    · split at h
      · simp at h
      · exact ⟨sub0, heq, (Except.ok.inj h).symm⟩

theorem evaluateSubmission_ok_shape (store : Store) (u : Principal) (j : Nat)
    (g : Option Rat) (f : String) (now : Nat) (store2 : Store)
    (h : evaluateSubmission store u j g f now = .ok store2) :
    ∃ g0 sub0, findById store j = some sub0 ∧
      store2 = saveSubmission store (evaluatedSub sub0 g0 f now) := by
  unfold evaluateSubmission at h
  split at h
  · simp at h
  · rename_i g0
    split at h
    · simp at h
    · split at h
      · simp at h
      · split at h
        · simp at h
        · split at h
          · simp at h
          · rename_i sub0 heq
            exact ⟨g0, sub0, heq, (Except.ok.inj h).symm⟩

theorem submitChallenge_ok_shape (store : Store) (u : Principal) (j : Nat)
    (r : String) (now : Nat) (store2 : Store)
    (h : submitChallenge store u j r now = .ok store2) :
    ∃ sub0, findById store j = some sub0 ∧ hasActiveChallenge sub0 = false ∧
      store2 = saveSubmission store { sub0 with challenge := some ⟨"pending", r, none, now, none⟩ } := by
  unfold submitChallenge at h
  split at h
  · simp at h
  · split at h
    · simp at h
    · rename_i sub0 heq
      split at h
      · simp at h
      · split at h
        · simp at h
        · split at h
          · simp at h
          · rename_i hch
            refine ⟨sub0, heq, ?_, (Except.ok.inj h).symm⟩
            cases hb : hasActiveChallenge sub0 with
            | true => exact absurd hb hch
            | false => rfl

theorem respondToChallenge_ok_shape (store : Store) (u : Principal) (j : Nat)
    (r : String) (now : Nat) (store2 : Store)
    (h : respondToChallenge store u j r now = .ok store2) :
    ∃ sub0 c0, findById store j = some sub0 ∧ sub0.challenge = some c0 ∧
      ¬(c0.status ≠ "pending" ∧ c0.status ≠ "reviewing") ∧
      store2 = saveSubmission store { sub0 with challenge := some (respondedCh c0 r now) } := by
  unfold respondToChallenge at h
  split at h
  · simp at h
  · split at h
    · simp at h
    · split at h
      · simp at h
      · rename_i sub0 heq
        split at h
        · simp at h
        · rename_i c0 hceq
          split at h
          · simp at h
          · rename_i hguard
            exact ⟨sub0, c0, heq, hceq, hguard, (Except.ok.inj h).symm⟩

theorem terminal_active (sub : Submission) (ht : terminalCh sub.challenge = true) :
    hasActiveChallenge sub = true := by
  cases hch : sub.challenge with
  | none =>
    rw [hch] at ht
    exact absurd ht (by simp [terminalCh])
  | some c =>
    rw [hch] at ht
    unfold hasActiveChallenge
    rw [hch]
    simp only [terminalCh, Bool.or_eq_true, Bool.and_eq_true, beq_iff_eq] at ht
    rcases ht with (h | h) | ⟨h, _⟩ <;> simp [h]

theorem terminal_not_open (c : Challenge) (ht : terminalCh (some c) = true) :
    c.status ≠ "pending" ∧ c.status ≠ "reviewing" := by
  simp only [terminalCh, Bool.or_eq_true, Bool.and_eq_true, beq_iff_eq] at ht
  rcases ht with (h | h) | ⟨h, _⟩ <;> rw [h] <;> exact ⟨by decide, by decide⟩

theorem submitChallenge_fails_terminal (store : Store) (u : Principal) (i : Nat)
    (r : String) (now : Nat) (sub : Submission)
    (hf : findById store i = some sub) (ht : terminalCh sub.challenge = true) :
    resultOk (submitChallenge store u i r now) = false := by
  by_cases hre : r = ""
  · unfold submitChallenge
    rw [if_pos hre]
    rfl
  · have hact : hasActiveChallenge sub = true := terminal_active sub ht
    unfold submitChallenge
    simp only [if_neg hre, hf]
    by_cases hown : sub.user ≠ u.id
    · simp only [if_pos hown]
      rfl
    · simp only [if_neg hown]
      by_cases hev : sub.evaluationStatus ≠ "evaluated"
      · simp only [if_pos hev]
        rfl
      · simp only [if_neg hev, hact]
        simp [resultOk]

theorem respondToChallenge_fails_terminal (store : Store) (u : Principal) (i : Nat)
    (r : String) (now : Nat) (sub : Submission)
    (hf : findById store i = some sub) (ht : terminalCh sub.challenge = true) :
    resultOk (respondToChallenge store u i r now) = false := by
  by_cases hre : r = ""
  · unfold respondToChallenge
    rw [if_pos hre]
    rfl
  · unfold respondToChallenge
    simp only [if_neg hre]
    by_cases hrole : u.role ≠ "admin"
    · simp only [if_pos hrole]
      rfl
    · simp only [if_neg hrole, hf]
      cases hch : sub.challenge with
      | none =>
        simp only [hch]
        rfl
      | some c =>
        rw [hch] at ht
        simp only [hch, if_pos (terminal_not_open c ht)]
        rfl

theorem updatedSub_frame (sub : Submission) (c : String) (t : Nat) :
    (updatedSub sub c t).id = sub.id ∧ (updatedSub sub c t).user = sub.user ∧
    (updatedSub sub c t).assessment = sub.assessment ∧
    (updatedSub sub c t).mcqResponses = sub.mcqResponses ∧
    (updatedSub sub c t).createdAt = sub.createdAt ∧
    (updatedSub sub c t).challenge = sub.challenge ∧
    (updatedSub sub c t).grade = sub.grade ∧
    (updatedSub sub c t).feedback = sub.feedback ∧
    (updatedSub sub c t).evaluationStatus = sub.evaluationStatus ∧
    (updatedSub sub c t).evaluatedAt = sub.evaluatedAt := by
  unfold updatedSub
  by_cases hc : c ≠ "" <;> by_cases htt : t ≠ 0 <;> simp [hc, htt]

theorem findById_after_save (store : Store) (i j : Nat) (sub sub0 s2 : Submission)
    (hf : findById store i = some sub) (_hf0 : findById store j = some sub0)
    (hid : s2.id = sub0.id) :
    findById (saveSubmission store s2) i = some (if sub0.id = i then s2 else sub) := by
  by_cases hji : sub0.id = i
  · rw [if_pos hji]
    exact findById_save_self store i sub s2 hf (by rw [hid, hji])
  · rw [if_neg hji]
    rw [findById_save_other store i s2 (by rw [hid]; exact hji)]
    exact hf

theorem findById_same_target (store : Store) (i j : Nat) (sub sub0 : Submission)
    (hf : findById store i = some sub) (hf0 : findById store j = some sub0)
    (hji : sub0.id = i) : sub0 = sub := by
  have hid0 : sub0.id = j := findById_id store j sub0 hf0
  have hij : j = i := by rw [← hid0, hji]
  rw [hij] at hf0
  exact Option.some.inj (hf0.symm.trans hf)

theorem terminal_preserved_op (A : List Assessment) (op : ApiOp) (store : Store)
    (i : Nat) (sub : Submission)
    (hf : findById store i = some sub) (ht : terminalCh sub.challenge = true) :
    ∃ sub2, findById (execOp A op store) i = some sub2 ∧ sub2.challenge = sub.challenge := by
  cases op with
  | read => exact ⟨sub, hf, rfl⟩
  | create u aid c t m newId now =>
    simp only [execOp]
    cases hr : createSubmission A store u aid c t m newId now with
    | error e => exact ⟨sub, hf, rfl⟩
    | ok store2 =>
      obtain ⟨ns, hns⟩ := createSubmission_ok_shape A store u aid c t m newId now store2 hr
      subst hns
      exact ⟨sub, findById_append_some store [ns] i sub hf, rfl⟩
  | update u j c t =>
    simp only [execOp]
    cases hr : updateSubmission store u j c t with
    | error e => exact ⟨sub, hf, rfl⟩
    | ok store2 =>
      obtain ⟨sub0, hf0, hshape⟩ := updateSubmission_ok_shape store u j c t store2 hr
      subst hshape
      obtain ⟨hid2, _, _, _, _, hch2, _, _, _, _⟩ := updatedSub_frame sub0 c t
      have hsave := findById_after_save store i j sub sub0 (updatedSub sub0 c t) hf hf0 hid2
      by_cases hji : sub0.id = i
      · rw [if_pos hji] at hsave
        have hsub : sub0 = sub := findById_same_target store i j sub sub0 hf hf0 hji
        refine ⟨updatedSub sub0 c t, hsave, ?_⟩
        rw [hch2, hsub]
      · rw [if_neg hji] at hsave
        exact ⟨sub, hsave, rfl⟩
  | evaluate u j g f now =>
    simp only [execOp]
    cases hr : evaluateSubmission store u j g f now with
    | error e => exact ⟨sub, hf, rfl⟩
    | ok store2 =>
      obtain ⟨g0, sub0, hf0, hshape⟩ := evaluateSubmission_ok_shape store u j g f now store2 hr
      subst hshape
      have hsave := findById_after_save store i j sub sub0 (evaluatedSub sub0 g0 f now) hf hf0 rfl
      by_cases hji : sub0.id = i
      · rw [if_pos hji] at hsave
        have hsub : sub0 = sub := findById_same_target store i j sub sub0 hf hf0 hji
        refine ⟨evaluatedSub sub0 g0 f now, hsave, ?_⟩
        show sub0.challenge = sub.challenge
        rw [hsub]
      · rw [if_neg hji] at hsave
        exact ⟨sub, hsave, rfl⟩
  | challenge u j r now =>
    simp only [execOp]
    cases hr : submitChallenge store u j r now with
    | error e => exact ⟨sub, hf, rfl⟩
    | ok store2 =>
      obtain ⟨sub0, hf0, hnoch, hshape⟩ := submitChallenge_ok_shape store u j r now store2 hr
      subst hshape
      have hsave := findById_after_save store i j sub sub0
        { sub0 with challenge := some ⟨"pending", r, none, now, none⟩ } hf hf0 rfl
      by_cases hji : sub0.id = i
      · have hsub : sub0 = sub := findById_same_target store i j sub sub0 hf hf0 hji
        rw [hsub] at hnoch
        rw [terminal_active sub ht] at hnoch
        exact absurd hnoch (by simp)
      · rw [if_neg hji] at hsave
        exact ⟨sub, hsave, rfl⟩
  | respond u j r now =>
    simp only [execOp]
    cases hr : respondToChallenge store u j r now with
    | error e => exact ⟨sub, hf, rfl⟩
    | ok store2 =>
      obtain ⟨sub0, c0, hf0, hc0, hguard, hshape⟩ :=
        respondToChallenge_ok_shape store u j r now store2 hr
      subst hshape
      have hsave := findById_after_save store i j sub sub0
        { sub0 with challenge := some (respondedCh c0 r now) } hf hf0 rfl
      by_cases hji : sub0.id = i
      · have hsub : sub0 = sub := findById_same_target store i j sub sub0 hf hf0 hji
        rw [hsub] at hc0
        rw [hc0] at ht
        exact absurd (terminal_not_open c0 ht) hguard
      · rw [if_neg hji] at hsave
        exact ⟨sub, hsave, rfl⟩

theorem terminal_preserved_ops (A : List Assessment) (ops : List ApiOp) (store : Store)
    (i : Nat) (sub : Submission)
    (hf : findById store i = some sub) (ht : terminalCh sub.challenge = true) :
    ∃ sub2, findById (execOps A ops store) i = some sub2 ∧ sub2.challenge = sub.challenge := by
  induction ops generalizing store sub with
  | nil => exact ⟨sub, hf, rfl⟩
  | cons op rest ih =>
    obtain ⟨sub1, hf1, hch1⟩ := terminal_preserved_op A op store i sub hf ht
    have ht1 : terminalCh sub1.challenge = true := by rw [hch1]; exact ht
    obtain ⟨sub2, hf2, hch2⟩ := ih (execOp A op store) sub1 hf1 ht1
    exact ⟨sub2, hf2, hch2.trans hch1⟩

/-- C7: once a submission's challenge is in a terminal status (`accepted`,
`rejected`, or `resolved` with a response set), no sequence of API requests
changes that challenge, and on every reachable state both `submitChallenge`
and `respondToChallenge` against that submission fail — no second active
challenge is ever created. -/
theorem terminal_challenge_locked (A : List Assessment) (ops : List ApiOp) (store : Store)
    (i : Nat) (sub : Submission) (u1 u2 : Principal) (reason response : String) (t1 t2 : Nat)
    (hf : findById store i = some sub) (ht : terminalCh sub.challenge = true) :
    ∃ sub2, findById (execOps A ops store) i = some sub2 ∧
      sub2.challenge = sub.challenge ∧ terminalCh sub2.challenge = true ∧
      resultOk (submitChallenge (execOps A ops store) u1 i reason t1) = false ∧
      resultOk (respondToChallenge (execOps A ops store) u2 i response t2) = false := by
  obtain ⟨sub2, hf2, hch2⟩ := terminal_preserved_ops A ops store i sub hf ht
  have ht2 : terminalCh sub2.challenge = true := by rw [hch2]; exact ht
  exact ⟨sub2, hf2, hch2, ht2,
    submitChallenge_fails_terminal _ u1 i reason t1 sub2 hf2 ht2,
    respondToChallenge_fails_terminal _ u2 i response t2 sub2 hf2 ht2⟩

/-- Witness for C7: after an accepted challenge, a re-filing attempt, a
second admin response and a re-evaluation, the accepted challenge is still
in place and both challenge operations keep failing. -/
theorem terminal_challenge_locked_witness :
    ∃ sub2, findById (execOps assessments0
        [ApiOp.challenge studentP 1 "again" 10,
         ApiOp.respond adminP 1 "[Status: REJECTED] no" 11,
         ApiOp.evaluate adminP 1 (some 70) "regraded" 12] storeTerminal) 1 = some sub2 ∧
      sub2.challenge = subTerminal.challenge ∧ terminalCh sub2.challenge = true ∧
      resultOk (submitChallenge (execOps assessments0
        [ApiOp.challenge studentP 1 "again" 10,
         ApiOp.respond adminP 1 "[Status: REJECTED] no" 11,
         ApiOp.evaluate adminP 1 (some 70) "regraded" 12] storeTerminal) studentP 1 "once more" 13) = false ∧
      resultOk (respondToChallenge (execOps assessments0
        [ApiOp.challenge studentP 1 "again" 10,
         ApiOp.respond adminP 1 "[Status: REJECTED] no" 11,
         ApiOp.evaluate adminP 1 (some 70) "regraded" 12] storeTerminal) adminP 1 "[Status: ACCEPTED] late" 14) = false :=
  terminal_challenge_locked assessments0
    [ApiOp.challenge studentP 1 "again" 10,
     ApiOp.respond adminP 1 "[Status: REJECTED] no" 11,
     ApiOp.evaluate adminP 1 (some 70) "regraded" 12] storeTerminal 1 subTerminal
    studentP adminP "once more" "[Status: ACCEPTED] late" 13 14 (by decide) (by decide)

/-- C8 counterexample: `updateSubmission` — exposed as PUT
/api/submissions/:id — changes the `content` of an existing submission,
although it is neither the evaluation operation nor challenge
filing/response. -/
theorem update_mutates_cex :
    (findById (execOp assessments0 (ApiOp.update studentP 1 "changed answer" 0) storePending) 1).map
      (fun s => s.content) = some "changed answer" ∧
    subPending.content = "answer" ∧
    isEvaluateOp (ApiOp.update studentP 1 "changed answer" 0) = false ∧
    isChallengeOp (ApiOp.update studentP 1 "changed answer" 0) = false := by decide

/-- C8 as amended: no request ever deletes a submission, and after any
request the submission's identity (`id`, `user`, `assessment`), its
`mcqResponses` and its creation time are unchanged; its challenge
sub-record changes only under challenge filing/response, its evaluation
fields only under the evaluation operation, and its `content` and
`tabSwitches` only under the update operation (PUT /api/submissions/:id),
which the original claim omitted. -/
theorem submission_never_deleted_frame (A : List Assessment) (op : ApiOp) (store : Store)
    (i : Nat) (sub : Submission) (hf : findById store i = some sub) :
    ∃ sub2, findById (execOp A op store) i = some sub2 ∧
      sub2.id = sub.id ∧ sub2.user = sub.user ∧ sub2.assessment = sub.assessment ∧
      sub2.mcqResponses = sub.mcqResponses ∧ sub2.createdAt = sub.createdAt ∧
      (sub2.challenge = sub.challenge ∨ isChallengeOp op = true) ∧
      ((sub2.grade = sub.grade ∧ sub2.feedback = sub.feedback ∧
        sub2.evaluationStatus = sub.evaluationStatus ∧ sub2.evaluatedAt = sub.evaluatedAt) ∨
        isEvaluateOp op = true) ∧
      ((sub2.content = sub.content ∧ sub2.tabSwitches = sub.tabSwitches) ∨
        isUpdateOp op = true) := by
  cases op with
  | read =>
    exact ⟨sub, hf, rfl, rfl, rfl, rfl, rfl, Or.inl rfl,
      Or.inl ⟨rfl, rfl, rfl, rfl⟩, Or.inl ⟨rfl, rfl⟩⟩
  | create u aid c t m newId now =>
    simp only [execOp]
    cases hr : createSubmission A store u aid c t m newId now with
    | error e =>
      exact ⟨sub, hf, rfl, rfl, rfl, rfl, rfl, Or.inl rfl,
        Or.inl ⟨rfl, rfl, rfl, rfl⟩, Or.inl ⟨rfl, rfl⟩⟩
    | ok store2 =>
      obtain ⟨ns, hns⟩ := createSubmission_ok_shape A store u aid c t m newId now store2 hr
      subst hns
      exact ⟨sub, findById_append_some store [ns] i sub hf, rfl, rfl, rfl, rfl, rfl,
        Or.inl rfl, Or.inl ⟨rfl, rfl, rfl, rfl⟩, Or.inl ⟨rfl, rfl⟩⟩
  | update u j c t =>
    simp only [execOp]
    cases hr : updateSubmission store u j c t with
    | error e =>
      exact ⟨sub, hf, rfl, rfl, rfl, rfl, rfl, Or.inl rfl,
        Or.inl ⟨rfl, rfl, rfl, rfl⟩, Or.inl ⟨rfl, rfl⟩⟩
    | ok store2 =>
      obtain ⟨sub0, hf0, hshape⟩ := updateSubmission_ok_shape store u j c t store2 hr
      subst hshape
      obtain ⟨hid2, huser2, hass2, hmcq2, hcre2, hch2, hgr2, hfb2, hst2, hev2⟩ :=
        updatedSub_frame sub0 c t
      have hsave := findById_after_save store i j sub sub0 (updatedSub sub0 c t) hf hf0 hid2
      by_cases hji : sub0.id = i
      · rw [if_pos hji] at hsave
        have hsub : sub0 = sub := findById_same_target store i j sub sub0 hf hf0 hji
        subst hsub
        exact ⟨updatedSub sub0 c t, hsave, hid2, huser2, hass2, hmcq2, hcre2,
          Or.inl hch2, Or.inl ⟨hgr2, hfb2, hst2, hev2⟩, Or.inr rfl⟩
      · rw [if_neg hji] at hsave
        exact ⟨sub, hsave, rfl, rfl, rfl, rfl, rfl, Or.inl rfl,
          Or.inl ⟨rfl, rfl, rfl, rfl⟩, Or.inl ⟨rfl, rfl⟩⟩
  | evaluate u j g f now =>
    simp only [execOp]
    cases hr : evaluateSubmission store u j g f now with
    | error e =>
      exact ⟨sub, hf, rfl, rfl, rfl, rfl, rfl, Or.inl rfl,
        Or.inl ⟨rfl, rfl, rfl, rfl⟩, Or.inl ⟨rfl, rfl⟩⟩
    | ok store2 =>
      obtain ⟨g0, sub0, hf0, hshape⟩ := evaluateSubmission_ok_shape store u j g f now store2 hr
      subst hshape
      have hsave := findById_after_save store i j sub sub0 (evaluatedSub sub0 g0 f now) hf hf0 rfl
      by_cases hji : sub0.id = i
      · rw [if_pos hji] at hsave
        have hsub : sub0 = sub := findById_same_target store i j sub sub0 hf hf0 hji
        subst hsub
        exact ⟨evaluatedSub sub0 g0 f now, hsave, rfl, rfl, rfl, rfl, rfl,
          Or.inl rfl, Or.inr rfl, Or.inl ⟨rfl, rfl⟩⟩
      · rw [if_neg hji] at hsave
        exact ⟨sub, hsave, rfl, rfl, rfl, rfl, rfl, Or.inl rfl,
          Or.inl ⟨rfl, rfl, rfl, rfl⟩, Or.inl ⟨rfl, rfl⟩⟩
  | challenge u j r now =>
    simp only [execOp]
    cases hr : submitChallenge store u j r now with
    | error e =>
      exact ⟨sub, hf, rfl, rfl, rfl, rfl, rfl, Or.inl rfl,
        Or.inl ⟨rfl, rfl, rfl, rfl⟩, Or.inl ⟨rfl, rfl⟩⟩
    | ok store2 =>
      obtain ⟨sub0, hf0, hnoch, hshape⟩ := submitChallenge_ok_shape store u j r now store2 hr
      subst hshape
      have hsave := findById_after_save store i j sub sub0
        { sub0 with challenge := some ⟨"pending", r, none, now, none⟩ } hf hf0 rfl
      by_cases hji : sub0.id = i
      · rw [if_pos hji] at hsave
        have hsub : sub0 = sub := findById_same_target store i j sub sub0 hf hf0 hji
        subst hsub
        exact ⟨{ sub0 with challenge := some ⟨"pending", r, none, now, none⟩ }, hsave,
          rfl, rfl, rfl, rfl, rfl, Or.inr rfl, Or.inl ⟨rfl, rfl, rfl, rfl⟩,
          Or.inl ⟨rfl, rfl⟩⟩
      · rw [if_neg hji] at hsave
        exact ⟨sub, hsave, rfl, rfl, rfl, rfl, rfl, Or.inl rfl,
          Or.inl ⟨rfl, rfl, rfl, rfl⟩, Or.inl ⟨rfl, rfl⟩⟩
  | respond u j r now =>
    simp only [execOp]
    cases hr : respondToChallenge store u j r now with
    | error e =>
      exact ⟨sub, hf, rfl, rfl, rfl, rfl, rfl, Or.inl rfl,
        Or.inl ⟨rfl, rfl, rfl, rfl⟩, Or.inl ⟨rfl, rfl⟩⟩
    | ok store2 =>
      obtain ⟨sub0, c0, hf0, hc0, hguard, hshape⟩ :=
        respondToChallenge_ok_shape store u j r now store2 hr
      subst hshape
      have hsave := findById_after_save store i j sub sub0
        { sub0 with challenge := some (respondedCh c0 r now) } hf hf0 rfl
      by_cases hji : sub0.id = i
      · rw [if_pos hji] at hsave
        have hsub : sub0 = sub := findById_same_target store i j sub sub0 hf hf0 hji
        subst hsub
        exact ⟨{ sub0 with challenge := some (respondedCh c0 r now) }, hsave,
          rfl, rfl, rfl, rfl, rfl, Or.inr rfl, Or.inl ⟨rfl, rfl, rfl, rfl⟩,
          Or.inl ⟨rfl, rfl⟩⟩
      · rw [if_neg hji] at hsave
        exact ⟨sub, hsave, rfl, rfl, rfl, rfl, rfl, Or.inl rfl,
          Or.inl ⟨rfl, rfl, rfl, rfl⟩, Or.inl ⟨rfl, rfl⟩⟩

/-- Witness for the amended C8: the update request keeps the submission in
the store with identity, responses and creation time intact, and only the
update-operation group of fields may have changed. -/
theorem submission_never_deleted_frame_witness :
    ∃ sub2, findById (execOp assessments0 (ApiOp.update studentP 1 "changed answer" 0)
        storePending) 1 = some sub2 ∧
      sub2.id = subPending.id ∧ sub2.user = subPending.user ∧
      sub2.assessment = subPending.assessment ∧
      sub2.mcqResponses = subPending.mcqResponses ∧ sub2.createdAt = subPending.createdAt ∧
      (sub2.challenge = subPending.challenge ∨
        isChallengeOp (ApiOp.update studentP 1 "changed answer" 0) = true) ∧
      ((sub2.grade = subPending.grade ∧ sub2.feedback = subPending.feedback ∧
        sub2.evaluationStatus = subPending.evaluationStatus ∧
        sub2.evaluatedAt = subPending.evaluatedAt) ∨
        isEvaluateOp (ApiOp.update studentP 1 "changed answer" 0) = true) ∧
      ((sub2.content = subPending.content ∧ sub2.tabSwitches = subPending.tabSwitches) ∨
        isUpdateOp (ApiOp.update studentP 1 "changed answer" 0) = true) :=
  submission_never_deleted_frame assessments0 (ApiOp.update studentP 1 "changed answer" 0)
    storePending 1 subPending (by decide)

theorem lookup_bump_self (cat : String) (sc : Nat) :
    ∀ acc : List (String × Nat × Nat),
    (bump acc cat sc).lookup cat =
      some (match acc.lookup cat with
            | some p => (p.1 + sc, p.2 + 1)
            | none => (sc, 1)) := by
  intro acc
  induction acc with
  | nil => simp [bump, List.lookup]
  | cons q rest ih =>
    obtain ⟨c0, t0, n0⟩ := q
    by_cases hc : c0 = cat
    · subst hc
      simp [bump, List.lookup]
    · have hc2 : ¬cat = c0 := fun h => hc h.symm
      have hb : (cat == c0) = false := by simp [hc2]
      simp [bump, hc, List.lookup, hb, ih]

theorem lookup_bump_ne (c cat : String) (sc : Nat) (hne : c ≠ cat) :
    ∀ acc : List (String × Nat × Nat),
    (bump acc cat sc).lookup c = acc.lookup c := by
  intro acc
  have hb : (c == cat) = false := by simp [hne]
  induction acc with
  | nil => simp [bump, List.lookup, hb]
  | cons q rest ih =>
    obtain ⟨c0, t0, n0⟩ := q
    by_cases hc : c0 = cat
    · subst hc
      simp [bump, List.lookup, hb]
    · by_cases hcc : c = c0
      · subst hcc
        simp [bump, hc, List.lookup]
      · have hb2 : (c == c0) = false := by simp [hcc]
        simp [bump, hc, List.lookup, hb2, ih]

theorem foldl_scoreStep_lookup (responses : List (String × List String)) (cat : String) :
    ∀ (l : List (Nat × Question)) (acc : List (String × Nat × Nat)),
    ((l.foldl (scoreStep responses) acc).lookup cat) =
      (match acc.lookup cat with
       | some p => some (p.1 + sumScores responses (relFilter l cat),
                         p.2 + (relFilter l cat).length)
       | none =>
         if relFilter l cat = [] then none
         else some (sumScores responses (relFilter l cat), (relFilter l cat).length)) := by
  intro l
  induction l with
  | nil =>
    intro acc
    cases h : acc.lookup cat with
    | none => simp [h, relFilter, sumScores]
    | some p => simp [h, relFilter, sumScores]
  | cons p rest ih =>
    intro acc
    rw [List.foldl_cons]
    by_cases hq : p.2.qtype = "mcq"
    · cases hcn : p.2.categoryName with
      | none =>
        have hstep : scoreStep responses acc p = acc := by
          unfold scoreStep
          simp [hq, hcn]
        have hrel : relFilter (p :: rest) cat = relFilter rest cat := by
          simp [relFilter, List.filter_cons, hcn]
        rw [hstep, ih acc, hrel]
      | some cat2 =>
        by_cases hcc : cat2 = cat
        · subst hcc
          have hstep : scoreStep responses acc p =
              bump acc cat2 (questionScore responses p) := by
            unfold scoreStep questionScore
            simp [hq, hcn]
          have hrel : relFilter (p :: rest) cat2 = p :: relFilter rest cat2 := by
            simp [relFilter, List.filter_cons, hq, hcn]
          rw [hstep, ih (bump acc cat2 (questionScore responses p)), hrel,
            lookup_bump_self cat2 (questionScore responses p) acc]
          cases h : acc.lookup cat2 with
          | none =>
            simp [sumScores]
            try omega
          | some p0 =>
            simp [sumScores]
            try omega
        · have hstep : scoreStep responses acc p =
              bump acc cat2 (questionScore responses p) := by
            unfold scoreStep questionScore
            simp [hq, hcn]
          have hrel : relFilter (p :: rest) cat = relFilter rest cat := by
            simp [relFilter, List.filter_cons, hq, hcn, hcc]
          have hne : cat ≠ cat2 := fun h => hcc h.symm
          rw [hstep, ih (bump acc cat2 (questionScore responses p)), hrel,
            lookup_bump_ne cat cat2 (questionScore responses p) hne acc]
    · have hstep : scoreStep responses acc p = acc := by
        unfold scoreStep
        simp [hq]
      have hrel : relFilter (p :: rest) cat = relFilter rest cat := by
        simp [relFilter, List.filter_cons, hq]
      rw [hstep, ih acc, hrel]

theorem categoryTotals_lookup (questions : List Question)
    (responses : List (String × List String)) (cat : String) :
    (categoryTotals questions responses).lookup cat =
      (if relevantMcq questions cat = [] then none
       else some (sumScores responses (relevantMcq questions cat),
                  (relevantMcq questions cat).length)) := by
  unfold categoryTotals relevantMcq
  rw [foldl_scoreStep_lookup responses cat (questions.enum) []]
  rfl

theorem lookup_map_snd (g : Nat × Nat → Rat) (c : String) :
    ∀ l : List (String × Nat × Nat),
    ((l.map (fun p => (p.1, g p.2))).lookup c) = (l.lookup c).map g := by
  intro l
  induction l with
  | nil => rfl
  | cons q rest ih =>
    obtain ⟨c0, v⟩ := q
    by_cases hc : c = c0
    · subst hc
      simp [List.lookup]
    · have hb : (c == c0) = false := by simp [hc]
      simp [List.lookup, hb, ih]

theorem sameOptionSet_iff (a b : List String) :
    sameOptionSet a b = true ↔ (∀ x, x ∈ a ↔ x ∈ b) := by
  unfold sameOptionSet
  simp only [Bool.and_eq_true, List.all_eq_true, List.contains, List.elem_iff]
  constructor
  · rintro ⟨h1, h2⟩ x
    exact ⟨h1 x, h2 x⟩
  · intro h
    exact ⟨fun x hx => (h x).mp hx, fun x hx => (h x).mpr hx⟩

theorem mcqScore_exact (correct selected : List String) :
    (mcqScore correct selected = 100 ↔ (∀ x, x ∈ selected ↔ x ∈ correct)) ∧
    (mcqScore correct selected = 100 ∨ mcqScore correct selected = 0) := by
  unfold mcqScore
  by_cases hs : sameOptionSet selected correct = true
  · rw [if_pos hs]
    exact ⟨⟨fun _ => (sameOptionSet_iff selected correct).mp hs, fun _ => rfl⟩, Or.inl rfl⟩
  · rw [if_neg hs]
    refine ⟨⟨fun h => absurd h (by decide), fun hp => ?_⟩, Or.inr rfl⟩
    exact absurd ((sameOptionSet_iff selected correct).mpr hp) hs

/-- C4: the `categoryScores` mapping assigns to each category the
arithmetic mean, over the MCQ questions carrying that category, of the
per-question 0/100 scores, where a question scores 100 exactly when the
selected-option set equals the correct-option set (no partial credit);
a category carried by no MCQ question — in particular, any bucket a
category-less question might have joined — is absent from the mapping. -/
theorem categoryScores_mean (questions : List Question)
    (responses : List (String × List String)) (cat : String) :
    ((categoryScores questions responses).lookup cat) =
      (if relevantMcq questions cat = [] then none
       else some (((sumScores responses (relevantMcq questions cat) : Int) : Rat) /
                  ((relevantMcq questions cat).length : Rat))) ∧
    (∀ correct selected : List String,
      (mcqScore correct selected = 100 ↔ (∀ x, x ∈ selected ↔ x ∈ correct)) ∧
      (mcqScore correct selected = 100 ∨ mcqScore correct selected = 0)) := by
  constructor
  · unfold categoryScores
    rw [lookup_map_snd (fun v => mkRat (v.1 : Int) v.2) cat
      (categoryTotals questions responses), categoryTotals_lookup]
    by_cases hrel : relevantMcq questions cat = []
    · rw [if_pos hrel, if_pos hrel]
      rfl
    · rw [if_neg hrel, if_neg hrel]
      show some (mkRat ((sumScores responses (relevantMcq questions cat)) : Int)
        ((relevantMcq questions cat).length)) = _
      rw [Rat.mkRat_eq_div]
  · exact mcqScore_exact
